import Mathlib

/-!
Verification of the message-dispatch orchestrator of the `tg-link`
repository (`src/telegram_sender.py`, `src/config.py`) against its
natural-language specification.

The Python code is shallowly embedded: the external client library
(`telethon`) is modelled as a pair of capability functions
(`getEntity`, `sendMessageRaw`) whose results include the exceptions the
library can raise, encoded as an `Except` value.  The `try/except`
blocks of the orchestrator become matches on those `Except` values;
the implicit exception propagation of Python becomes explicit `.error` threading.
Calls to the external send capability and to `asyncio.sleep` are
instrumented as explicit traces so that "the capability is never
invoked" and "exactly k suspensions occur" are statable.
-/

namespace TgLink

/-- Exceptions the external client library can signal, as the Python code
distinguishes them: `errors.UsernameNotOccupiedError`,
`errors.UsernameInvalidError`, `errors.FloodWaitError` (carrying
`e.seconds`), `errors.PeerFloodError`, and any other `Exception`
(carrying its string form). -/
inductive PyExn where
  | usernameNotOccupied
  | usernameInvalid
  | floodWait (seconds : Nat)
  | peerFlood
  | other (msg : String)
deriving DecidableEq, Repr

/-- The string form `str(e)` of an exception, used where the Python code
interpolates the exception into a log/outcome message. -/
def PyExn.message : PyExn → String
  | .usernameNotOccupied => "UsernameNotOccupiedError"
  | .usernameInvalid => "UsernameInvalidError"
  | .floodWait n => "FloodWaitError: " ++ toString n
  | .peerFlood => "PeerFloodError"
  | .other msg => msg

/-- Entities `telethon.client.get_entity` can return.  The code only
checks `isinstance(entity, User)`; chats and channels are the non-user
cases mentioned in its warning log. -/
inductive Entity where
  | user (id : Nat)
  | chat (id : Nat)
  | channel (id : Nat)
deriving DecidableEq, Repr

/-- The external lookup capability: `self.client.get_entity`, which
returns an entity or raises. -/
def GetEntity := String → Except PyExn Entity

/-- The external send capability: `self.client.send_message(user, message)`,
which returns nothing or raises.  The first argument is the resolved
id of the resolved user. -/
def SendRaw := Nat → String → Except PyExn Unit

/-- Embeds `username.lstrip('@')`: in Python, `lstrip` removes *every* leading
occurrence of the given character. -/
def lstripAt (s : String) : String :=
  ⟨s.data.dropWhile (· = '@')⟩

/-- Embeds `TelegramSender.resolve_username` (src/telegram_sender.py lines
56-84).  Strips leading `@`, calls the lookup capability, returns the
entity if it is a `User`, and maps every failure — `UsernameNotOccupied`,
`UsernameInvalid`, non-user entity, or any other exception — to `None`.
The result is `Except` because a Python function can in principle let an
exception escape; the catch-all `except Exception` means this one never
does (proved below). -/
def resolve_username (getEntity : GetEntity) (username : String) :
    Except PyExn (Option Nat) :=
  let clean_username := lstripAt username
  match getEntity clean_username with
  | .ok (.user id) => .ok (some id)
  | .ok (.chat _) => .ok none
  | .ok (.channel _) => .ok none
  | .error .usernameNotOccupied => .ok none
  | .error .usernameInvalid => .ok none
  | .error _ => .ok none

/-- The Dispatch Outcome taxonomy of the spec (spec §3): exactly one tag per
(handle, message) attempt. -/
inductive DispatchOutcome where
  | sent
  | notFound
  | invalidHandle
  | notAUser
  | rateLimited (wait_seconds : Nat)
  | blocked
  | otherFailure (detail : String)
deriving DecidableEq, Repr

/-- The branch-level classification of one resolution attempt: `none`
when resolution succeeds, otherwise the resolution-failure tag of the spec
for the branch `resolve_username` takes (each branch emits a distinct
diagnostic record in the source, so the tag is recoverable from the
control flow of the code). -/
def resolve_outcome (getEntity : GetEntity) (username : String) :
    Option DispatchOutcome :=
  match getEntity (lstripAt username) with
  | .ok (.user _) => none
  | .ok (.chat _) => some .notAUser
  | .ok (.channel _) => some .notAUser
  | .error .usernameNotOccupied => some .notFound
  | .error .usernameInvalid => some .invalidHandle
  | .error e => some (.otherFailure e.message)

/-- Embeds `TelegramSender.send_message` (src/telegram_sender.py lines 86-113),
instrumented with the list of invocations of the external send
capability (each `(user id, message)` pair records one call to
`self.client.send_message`).  Resolution failure returns `False`
without touching the capability; each `except` clause of the source is
one `.error` branch, all returning `False`. -/
def send_message_t (getEntity : GetEntity) (sendRaw : SendRaw)
    (username message : String) : Except PyExn Bool × List (Nat × String) :=
  match resolve_username getEntity username with
  | .error e => (.error e, [])
  | .ok none => (.ok false, [])
  | .ok (some user) =>
    match sendRaw user message with
    | .ok _ => (.ok true, [(user, message)])
    | .error (.floodWait _) => (.ok false, [(user, message)])
    | .error .peerFlood => (.ok false, [(user, message)])
    | .error _ => (.ok false, [(user, message)])

/-- Embeds `TelegramSender.send_message`: the boolean the Python function
returns (the trace erased). -/
def send_message (getEntity : GetEntity) (sendRaw : SendRaw)
    (username message : String) : Except PyExn Bool :=
  (send_message_t getEntity sendRaw username message).1

/-- The branch-level classification of one send attempt into the
Dispatch Outcome taxonomy of the spec: resolution failures keep their resolution
tag; a clean send is `sent`; the `FloodWaitError`, `PeerFloodError` and
catch-all branches of `send_message` are `rateLimited`, `blocked` and
`otherFailure`. -/
def send_outcome (getEntity : GetEntity) (sendRaw : SendRaw)
    (username message : String) : DispatchOutcome :=
  match resolve_outcome getEntity username with
  | some f => f
  | none =>
    match resolve_username getEntity username with
    | .ok (some user) =>
      match sendRaw user message with
      | .ok _ => .sent
      | .error (.floodWait n) => .rateLimited n
      | .error .peerFlood => .blocked
      | .error e => .otherFailure e.message
    | _ => .otherFailure ""

/-- The Batch Result of the spec (spec §3): ordered `successful` and `failed`
handle sequences plus `total`, mirroring the `results` dict of
`send_bulk_messages`. -/
structure BatchResult where
  successful : List String
  failed : List String
  total : Nat
deriving DecidableEq, Repr

/-- The loop body of `TelegramSender.send_bulk_messages`
(src/telegram_sender.py lines 133-142): for each username, call
`send_message` (propagating any escaped exception), append the handle
to `successful` or `failed`, then `await asyncio.sleep(delay)` whenever
`delay > 0` — recorded in the sleep trace. -/
def bulkGo (getEntity : GetEntity) (sendRaw : SendRaw)
    (message : String) (delay : Int) :
    List String → BatchResult → List Int →
    Except PyExn (BatchResult × List Int)
  | [], acc, sleeps => .ok (acc, sleeps)
  | username :: rest, acc, sleeps =>
    match send_message getEntity sendRaw username message with
    | .error e => .error e
    | .ok success =>
      bulkGo getEntity sendRaw message delay rest
        (if success then { acc with successful := acc.successful ++ [username] }
         else { acc with failed := acc.failed ++ [username] })
        (if delay > 0 then sleeps ++ [delay] else sleeps)

/-- Embeds `TelegramSender.send_bulk_messages` (src/telegram_sender.py lines
115-145): initializes the result with empty lists and
`total = len(usernames)`, then runs the loop.  The second component of
the returned pair is the trace of `asyncio.sleep` durations. -/
def send_bulk_messages (getEntity : GetEntity) (sendRaw : SendRaw)
    (usernames : List String) (message : String) (delay : Int) :
    Except PyExn (BatchResult × List Int) :=
  bulkGo getEntity sendRaw message delay usernames
    { successful := [], failed := [], total := usernames.length } []

/-! ## Configuration (`src/config.py`) -/

/-- The environment variables `TelegramConfig.__init__` reads via
`os.getenv`: `None` when unset, the raw string otherwise. -/
structure EnvVars where
  api_id : Option String
  api_hash : Option String
  phone_number : Option String
  session_name : Option String
deriving DecidableEq, Repr

/-- Python truthiness of an optional string: `not self.api_id` is true
when the variable is unset (`None`) or set to the empty string. -/
def falsyStr : Option String → Bool
  | none => true
  | some s => s.isEmpty

/-- The `missing_credentials` list built by
`TelegramConfig._validate_credentials` (src/config.py lines 19-28), in
the check order of the source. -/
def missing_credentials (env : EnvVars) : List String :=
  (if falsyStr env.api_id then ["API_ID"] else []) ++
  (if falsyStr env.api_hash then ["API_HASH"] else []) ++
  (if falsyStr env.phone_number then ["PHONE_NUMBER"] else [])

/-- The `ValueError` message raised when credentials are missing
(src/config.py lines 30-34). -/
def missingCredentialsMsg (missing : List String) : String :=
  "Missing required credentials: " ++ String.intercalate ", " missing ++
  "\nPlease create a .env file based on .env.example and fill in your credentials."

/-- Embeds `TelegramConfig._validate_credentials`: raises (`.error`) with the
enumerated missing fields when any required credential is falsy. -/
def validate_credentials (env : EnvVars) : Except String Unit :=
  let missing := missing_credentials env
  if missing ≠ [] then .error (missingCredentialsMsg missing) else .ok ()

/-- The state a successfully constructed `TelegramConfig` holds. -/
structure TelegramConfig where
  api_id : Option String
  api_hash : Option String
  phone_number : Option String
  session_name : String
deriving DecidableEq, Repr

/-- Embeds `TelegramConfig.__init__` (src/config.py lines 10-17): reads the
environment (`SESSION_NAME` defaulting to `"telegram_session"`) and
validates; a `ValueError` from validation propagates. -/
def telegram_config_init (env : EnvVars) : Except String TelegramConfig :=
  match validate_credentials env with
  | .error msg => .error msg
  | .ok _ => .ok
      { api_id := env.api_id
        api_hash := env.api_hash
        phone_number := env.phone_number
        session_name := env.session_name.getD "telegram_session" }

/-- Python whitespace accepted around an integer literal by `int(str)`. -/
def isPySpace (c : Char) : Bool :=
  c = ' ' || c = '\t' || c = '\n' || c = '\r' || c = '\x0b' || c = '\x0c'

/-- A nonempty all-decimal-digit character list, as a natural number. -/
def parseDigits (l : List Char) : Option Nat :=
  if l ≠ [] ∧ l.all Char.isDigit then
    some (l.foldl (fun acc c => acc * 10 + (c.toNat - '0'.toNat)) 0)
  else none

/-- Models Python `int(str)` on its common forms: optional surrounding
whitespace, an optional sign, then decimal digits.  (Underscore
separators and non-ASCII digits are not modelled; the claims only need
that unparseable strings fail.) -/
def pythonIntParse (s : String) : Option Int :=
  let t := ((s.data.dropWhile isPySpace).reverse.dropWhile isPySpace).reverse
  match t with
  | '-' :: rest => (parseDigits rest).map (fun n => -(n : Int))
  | '+' :: rest => (parseDigits rest).map (fun n => (n : Int))
  | _ => (parseDigits t).map (fun n => (n : Int))

/-- Embeds `TelegramConfig.get_api_id` (src/config.py lines 36-41): `int(self.api_id)`,
with `ValueError`/`TypeError` mapped to a `ValueError` with a fixed
message.  (`TypeError` is the `None` case.) -/
def get_api_id (config : TelegramConfig) : Except String Int :=
  match config.api_id with
  | none => .error "API_ID must be a valid integer"
  | some s =>
    match pythonIntParse s with
    | some n => .ok n
    | none => .error "API_ID must be a valid integer"

/-- The state `TelegramSender.__init__` leaves behind: the config plus
the three values handed to the `TelegramClient` constructor. -/
structure TelegramSender where
  config : TelegramConfig
  session_name : String
  api_id : Int
  api_hash : Option String
deriving DecidableEq, Repr

/-- Embeds `TelegramSender.__init__` (src/telegram_sender.py lines 24-35):
builds the config then the client, re-raising any failure.  No network
capability is consulted — the constructor takes none — so any error here
happens before any network activity. -/
def telegram_sender_init (env : EnvVars) : Except String TelegramSender :=
  match telegram_config_init env with
  | .error msg => .error msg
  | .ok config =>
    match get_api_id config with
    | .error msg => .error msg
    | .ok api_id => .ok
        { config := config
          session_name := config.session_name
          api_id := api_id
          api_hash := config.api_hash }

/-! ## Helper lemmas -/

/-- Whether one send attempt lands in the `sent` outcome; this is the
boolean `send_bulk_messages` branches on. -/
def sentB (gE : GetEntity) (sR : SendRaw) (m : String) (u : String) : Bool :=
  decide (send_outcome gE sR u m = DispatchOutcome.sent)

theorem send_message_eq (gE : GetEntity) (sR : SendRaw) (u m : String) :
    send_message gE sR u m = .ok (sentB gE sR m u) := by
  cases hE : gE (lstripAt u) with
  | ok e =>
    cases e with
    | user id =>
      cases hS : sR id m with
      | ok a =>
        simp [send_message, send_message_t, send_outcome, resolve_outcome,
          resolve_username, sentB, hE, hS]
      | error e =>
        cases e <;>
          simp [send_message, send_message_t, send_outcome, resolve_outcome,
            resolve_username, sentB, hE, hS]
    | chat id =>
      simp [send_message, send_message_t, send_outcome, resolve_outcome,
        resolve_username, sentB, hE]
    | channel id =>
      simp [send_message, send_message_t, send_outcome, resolve_outcome,
        resolve_username, sentB, hE]
  | error e =>
    cases e <;>
      simp [send_message, send_message_t, send_outcome, resolve_outcome,
        resolve_username, sentB, hE]

theorem resolve_outcome_some (gE : GetEntity) (u : String)
    (f : DispatchOutcome) (h : resolve_outcome gE u = some f) :
    resolve_username gE u = .ok none := by
  cases hE : gE (lstripAt u) with
  | ok e => cases e <;> simp_all [resolve_outcome, resolve_username, hE]
  | error e => cases e <;> simp_all [resolve_outcome, resolve_username, hE]

/-- Concrete lookup capability used by witnesses: `"alice"` resolves to
user 7, everything else is unoccupied. -/
def lookupStub : GetEntity := fun s =>
  if s = "alice" then .ok (.user 7) else .error .usernameNotOccupied

/-- Concrete send capability used by witnesses: every send succeeds. -/
def sendStub : SendRaw := fun _ _ => .ok ()

end TgLink

namespace TgLink

/-! ## Claims -/

/-- C3.  For every handle and message and every behaviour of the external
capabilities (including arbitrary exceptions), `send_message` returns a
value — never a propagated exception — and its boolean corresponds to the
`sent` tag of the Dispatch Outcome taxonomy into which every code path
is classified. -/
theorem send_is_total (gE : GetEntity) (sR : SendRaw) (u m : String) :
    ∃ b : Bool, send_message gE sR u m = Except.ok b ∧
      (b = true ↔ send_outcome gE sR u m = DispatchOutcome.sent) := by
  refine ⟨sentB gE sR m u, send_message_eq gE sR u m, ?_⟩
  simp [sentB]

/-- C2.  If resolution of a handle fails with any resolution-failure tag
`f`, then `send_message` short-circuits: the overall outcome is exactly
`f`, the external send capability is never invoked (empty invocation
trace), and the call returns `False`. -/
theorem resolve_failure_short_circuits (gE : GetEntity) (sR : SendRaw)
    (u m : String) (f : DispatchOutcome) (h : resolve_outcome gE u = some f) :
    send_outcome gE sR u m = f ∧
    (send_message_t gE sR u m).2 = [] ∧
    send_message gE sR u m = .ok false := by
  have hr := resolve_outcome_some gE u f h
  refine ⟨?_, ?_, ?_⟩
  · simp [send_outcome, h]
  · simp [send_message_t, hr]
  · simp [send_message, send_message_t, hr]

/-- Witness for C2 at the concrete handle `"bob"` (unoccupied under
`lookupStub`): outcome `notFound`, no send invocation, result `False`. -/
theorem resolve_failure_short_circuits_witness :
    send_outcome lookupStub sendStub "bob" "hi" = DispatchOutcome.notFound ∧
    (send_message_t lookupStub sendStub "bob" "hi").2 = [] ∧
    send_message lookupStub sendStub "bob" "hi" = .ok false :=
  resolve_failure_short_circuits lookupStub sendStub "bob" "hi"
    DispatchOutcome.notFound (by decide)

/-- C6.  Resolving a handle with an extra leading `@` marker yields the
same result, the same failure classification, and the same send outcome
as resolving it without, for every behaviour of the capabilities. -/
theorem resolve_marker_invariant (gE : GetEntity) (sR : SendRaw)
    (h m : String) :
    resolve_username gE ("@" ++ h) = resolve_username gE h ∧
    resolve_outcome gE ("@" ++ h) = resolve_outcome gE h ∧
    send_outcome gE sR ("@" ++ h) m = send_outcome gE sR h m := by
  have hl : lstripAt ("@" ++ h) = lstripAt h := by
    simp [lstripAt, String.data_append]
  refine ⟨?_, ?_, ?_⟩
  · simp [resolve_username, hl]
  · simp [resolve_outcome, hl]
  · simp [send_outcome, resolve_outcome, resolve_username, hl]

/-- C5 counterexample: normalization does not remove exactly one leading
marker — on `"@@alice"` the code yields `"alice"`, not `"@alice"`. -/
theorem lstrip_single_marker_counterexample :
    lstripAt "@@alice" = "alice" ∧ ("alice" : String) ≠ "@alice" := by
  constructor
  · rfl
  · decide

/-- C5 (amended).  Normalization removes the entire leading run of
marker characters and performs no other transformation: the input is
exactly a block of `'@'`s followed by the result, and the result does
not begin with `'@'`. -/
theorem lstrip_strips_all_leading_markers (s : String) :
    ∃ n : Nat, s.data = List.replicate n '@' ++ (lstripAt s).data ∧
      ((lstripAt s).data.head?.any (· == '@')) = false := by
  refine ⟨(s.data.takeWhile (· = '@')).length, ?_, ?_⟩
  · have := List.takeWhile_append_dropWhile (p := fun c => decide (c = '@'))
      (l := s.data)
    have hrep : s.data.takeWhile (fun c => decide (c = '@')) =
        List.replicate (s.data.takeWhile (fun c => decide (c = '@'))).length '@' := by
      apply List.eq_replicate_of_mem
      intro b hb
      have := List.mem_takeWhile_imp hb
      simpa using this
    calc s.data
        = s.data.takeWhile (fun c => decide (c = '@')) ++
            s.data.dropWhile (fun c => decide (c = '@')) := this.symm
      _ = List.replicate (s.data.takeWhile (fun c => decide (c = '@'))).length '@' ++
            (lstripAt s).data := by rw [← hrep]; rfl
  · have hd := List.head?_dropWhile_not (fun c => decide (c = '@')) s.data
    rcases hh : (s.data.dropWhile (fun c => decide (c = '@'))).head? with _ | c
    · simp [lstripAt, hh]
    · rw [hh] at hd
      simp only [lstripAt]
      rw [hh]
      simpa using hd

/-- Witness for C5 (amended) at the concrete handle `"@@alice"`. -/
theorem lstrip_strips_all_leading_markers_witness :
    ∃ n : Nat, ("@@alice" : String).data =
        List.replicate n '@' ++ (lstripAt "@@alice").data ∧
      ((lstripAt "@@alice").data.head?.any (· == '@')) = false :=
  lstrip_strips_all_leading_markers "@@alice"

end TgLink

namespace TgLink

/-! ## Batch characterization -/

theorem bulkGo_eq (gE : GetEntity) (sR : SendRaw) (m : String) (d : Int)
    (us : List String) : ∀ (acc : BatchResult) (sleeps : List Int),
    bulkGo gE sR m d us acc sleeps =
      .ok ({ successful := acc.successful ++ us.filter (sentB gE sR m),
             failed := acc.failed ++ us.filter (fun u => ! sentB gE sR m u),
             total := acc.total },
           sleeps ++ if d > 0 then List.replicate us.length d else []) := by
  induction us with
  | nil => intro acc sleeps; simp [bulkGo]
  | cons u rest ih =>
    intro acc sleeps
    rw [bulkGo, send_message_eq]
    cases hb : sentB gE sR m u with
    | true =>
      by_cases hd : d > 0 <;>
        simp [ih, hb, hd, List.filter_cons, List.replicate_succ,
          List.append_assoc]
    | false =>
      by_cases hd : d > 0 <;>
        simp [ih, hb, hd, List.filter_cons, List.replicate_succ,
          List.append_assoc]

theorem send_bulk_eq (gE : GetEntity) (sR : SendRaw)
    (us : List String) (m : String) (d : Int) :
    send_bulk_messages gE sR us m d =
      .ok ({ successful := us.filter (sentB gE sR m),
             failed := us.filter (fun u => ! sentB gE sR m u),
             total := us.length },
           if d > 0 then List.replicate us.length d else []) := by
  rw [send_bulk_messages, bulkGo_eq]
  simp

theorem length_filter_add_length_filter_not {α : Type} (p : α → Bool)
    (l : List α) :
    (l.filter p).length + (l.filter (fun a => ! p a)).length = l.length := by
  induction l with
  | nil => simp
  | cons a t ih =>
    cases hp : p a <;> simp [List.filter_cons, hp] <;> omega

theorem count_filter_add_count_filter_not {α : Type} [DecidableEq α]
    (p : α → Bool) (l : List α) (a : α) :
    (l.filter p).count a + (l.filter (fun x => ! p x)).count a =
      l.count a := by
  induction l with
  | nil => simp
  | cons b t ih =>
    cases hp : p b
    · rw [@List.filter_cons_of_neg α p b t (by simp [hp]),
        @List.filter_cons_of_pos α (fun x => ! p x) b t (by simp [hp])]
      by_cases hb : b = a
      · subst hb
        simp only [List.count_cons_self]
        omega
      · simp only [List.count_cons_of_ne (Ne.symm hb)]
        exact ih
    · rw [@List.filter_cons_of_pos α p b t (by simp [hp]),
        @List.filter_cons_of_neg α (fun x => ! p x) b t (by simp [hp])]
      by_cases hb : b = a
      · subst hb
        simp only [List.count_cons_self]
        omega
      · simp only [List.count_cons_of_ne (Ne.symm hb)]
        exact ih

end TgLink

namespace TgLink

/-- C1.  `send_bulk_messages` always returns a result whose `total` is
the input length, whose `successful` and `failed` lengths sum to
`total`, in which every input handle appears with its input multiplicity
split exactly between the two lists, and where both lists preserve the
input order (each is a sublist of the input). -/
theorem bulk_partitions_input (gE : GetEntity) (sR : SendRaw)
    (us : List String) (m : String) (d : Int) :
    ∃ (res : BatchResult) (sleeps : List Int),
      send_bulk_messages gE sR us m d = .ok (res, sleeps) ∧
      res.total = us.length ∧
      res.successful.length + res.failed.length = res.total ∧
      (∀ h : String, res.successful.count h + res.failed.count h = us.count h) ∧
      res.successful.Sublist us ∧
      res.failed.Sublist us := by
  refine ⟨_, _, send_bulk_eq gE sR us m d, rfl, ?_, ?_, ?_, ?_⟩
  · exact length_filter_add_length_filter_not _ us
  · intro h; exact count_filter_add_count_filter_not _ us h
  · exact List.filter_sublist us
  · exact List.filter_sublist us

/-- C4.  For a non-empty batch of `k` handles and a strictly positive
delay, the batch loop suspends exactly `k` times — once after every send
attempt, the final one included — each suspension with the configured
duration. -/
theorem bulk_trailing_delay (gE : GetEntity) (sR : SendRaw)
    (us : List String) (m : String) (d : Int)
    (_hne : us ≠ []) (hd : 0 < d) :
    ∃ res : BatchResult,
      send_bulk_messages gE sR us m d =
        .ok (res, List.replicate us.length d) := by
  refine ⟨{ successful := us.filter (sentB gE sR m),
            failed := us.filter (fun u => ! sentB gE sR m u),
            total := us.length }, ?_⟩
  rw [send_bulk_eq]
  simp [hd]

/-- Witness for C4: two handles, delay `1`, under the stub capabilities:
exactly two suspensions of duration `1` occur. -/
theorem bulk_trailing_delay_witness :
    (["bob", "alice"] : List String) ≠ [] ∧ (0 : Int) < 1 ∧
    ∃ res : BatchResult,
      send_bulk_messages lookupStub sendStub ["bob", "alice"] "hi" 1 =
        .ok (res, List.replicate 2 1) :=
  ⟨by decide, by decide,
    bulk_trailing_delay lookupStub sendStub ["bob", "alice"] "hi" 1
      (by decide) (by decide)⟩

/-- C10.  For every delay ≤ 0 — negative values included — the batch
loop performs no suspension at all and still returns the complete
result for the whole input. -/
theorem bulk_nonpositive_delay_skips_sleep (gE : GetEntity) (sR : SendRaw)
    (us : List String) (m : String) (d : Int) (hd : d ≤ 0) :
    ∃ res : BatchResult,
      send_bulk_messages gE sR us m d = .ok (res, []) ∧
      res.total = us.length ∧
      res.successful.length + res.failed.length = us.length := by
  refine ⟨{ successful := us.filter (sentB gE sR m),
            failed := us.filter (fun u => ! sentB gE sR m u),
            total := us.length },
    ?_, rfl, length_filter_add_length_filter_not _ us⟩
  rw [send_bulk_eq]
  simp [show ¬ d > 0 by omega]

/-- Witness for C10 at delay `-1`: no sleeps, complete result. -/
theorem bulk_nonpositive_delay_skips_sleep_witness :
    (-1 : Int) ≤ 0 ∧
    ∃ res : BatchResult,
      send_bulk_messages lookupStub sendStub ["bob", "alice"] "hi" (-1) =
        .ok (res, []) ∧
      res.total = (["bob", "alice"] : List String).length ∧
      res.successful.length + res.failed.length =
        (["bob", "alice"] : List String).length :=
  ⟨by decide,
    bulk_nonpositive_delay_skips_sleep lookupStub sendStub
      ["bob", "alice"] "hi" (-1) (by decide)⟩

end TgLink

namespace TgLink

theorem resolve_outcome_none (gE : GetEntity) (u : String) (user : Nat)
    (h : resolve_username gE u = .ok (some user)) :
    resolve_outcome gE u = none := by
  cases hE : gE (lstripAt u) with
  | ok e => cases e <;> simp_all [resolve_outcome, resolve_username, hE]
  | error e => cases e <;> simp_all [resolve_outcome, resolve_username, hE]

/-- Concrete send capability for the rate-limit witness: every send
raises `FloodWaitError` carrying 42 seconds. -/
def floodStub : SendRaw := fun _ _ => .error (.floodWait 42)

/-- C7.  If the handle resolves but the external send capability raises
a flood-wait carrying `n` seconds, the outcome is `RateLimited n`, the
capability is invoked exactly once (no automatic wait-and-retry within
the call), the call returns `False`, and in any batch containing the
handle it lands in the `failed` sequence. -/
theorem flood_wait_rate_limited (gE : GetEntity) (sR : SendRaw)
    (h m : String) (user n : Nat) (us : List String) (d : Int)
    (hres : resolve_username gE h = .ok (some user))
    (hfw : sR user m = .error (.floodWait n))
    (hmem : h ∈ us) :
    send_outcome gE sR h m = .rateLimited n ∧
    (send_message_t gE sR h m).2 = [(user, m)] ∧
    send_message gE sR h m = .ok false ∧
    ∃ (res : BatchResult) (sleeps : List Int),
      send_bulk_messages gE sR us m d = .ok (res, sleeps) ∧
      h ∈ res.failed := by
  have hro := resolve_outcome_none gE h user hres
  have hout : send_outcome gE sR h m = .rateLimited n := by
    simp [send_outcome, hro, hres, hfw]
  refine ⟨hout, ?_, ?_, ?_⟩
  · simp [send_message_t, hres, hfw]
  · simp [send_message, send_message_t, hres, hfw]
  · refine ⟨_, _, send_bulk_eq gE sR us m d, ?_⟩
    simp only [List.mem_filter]
    exact ⟨hmem, by simp [sentB, hout]⟩

/-- Witness for C7: under `lookupStub`/`floodStub`, handle `"alice"`
resolves to user 7, the send raises flood-wait 42, the outcome is
`RateLimited 42` with a single capability invocation, and `"alice"`
lands in `failed`. -/
theorem flood_wait_rate_limited_witness :
    send_outcome lookupStub floodStub "alice" "hi" =
      DispatchOutcome.rateLimited 42 ∧
    (send_message_t lookupStub floodStub "alice" "hi").2 = [(7, "hi")] ∧
    send_message lookupStub floodStub "alice" "hi" = .ok false ∧
    ∃ (res : BatchResult) (sleeps : List Int),
      send_bulk_messages lookupStub floodStub ["alice"] "hi" 0 =
        .ok (res, sleeps) ∧
      "alice" ∈ res.failed :=
  flood_wait_rate_limited lookupStub floodStub "alice" "hi" 7 42 ["alice"] 0
    rfl rfl (by decide)

/-- C8.  If resolution succeeds and the external send capability
completes without error, the outcome is `Sent`, the call returns `True`,
and in any batch containing the handle it lands in the `successful`
sequence. -/
theorem send_success_sent (gE : GetEntity) (sR : SendRaw)
    (h m : String) (user : Nat) (us : List String) (d : Int)
    (hres : resolve_username gE h = .ok (some user))
    (hok : sR user m = .ok ())
    (hmem : h ∈ us) :
    send_outcome gE sR h m = .sent ∧
    send_message gE sR h m = .ok true ∧
    ∃ (res : BatchResult) (sleeps : List Int),
      send_bulk_messages gE sR us m d = .ok (res, sleeps) ∧
      h ∈ res.successful := by
  have hro := resolve_outcome_none gE h user hres
  have hout : send_outcome gE sR h m = .sent := by
    simp [send_outcome, hro, hres, hok]
  refine ⟨hout, ?_, ?_⟩
  · simp [send_message, send_message_t, hres, hok]
  · refine ⟨_, _, send_bulk_eq gE sR us m d, ?_⟩
    simp only [List.mem_filter]
    exact ⟨hmem, by simp [sentB, hout]⟩

/-- Witness for C8: under `lookupStub`/`sendStub`, `"alice"` resolves
to user 7, the send succeeds, the outcome is `Sent`, and `"alice"`
lands in `successful` in a batch with `"bob"`. -/
theorem send_success_sent_witness :
    send_outcome lookupStub sendStub "alice" "hi" = DispatchOutcome.sent ∧
    send_message lookupStub sendStub "alice" "hi" = .ok true ∧
    ∃ (res : BatchResult) (sleeps : List Int),
      send_bulk_messages lookupStub sendStub ["bob", "alice"] "hi" 0 =
        .ok (res, sleeps) ∧
      "alice" ∈ res.successful :=
  send_success_sent lookupStub sendStub "alice" "hi" 7 ["bob", "alice"] 0
    rfl rfl (by decide)

end TgLink

namespace TgLink

/-- C9.  Constructing the sender fails — with no network capability ever
consulted, since `telegram_sender_init` takes none — whenever any
required credential is missing, with an error message enumerating
exactly the missing fields (each of the three names appears in the list
precisely when that field is missing); and, when all credentials are
present, it fails whenever the API identifier does not parse as an
integer. -/
theorem config_validation (env : EnvVars) :
    (missing_credentials env ≠ [] →
      telegram_sender_init env =
        .error (missingCredentialsMsg (missing_credentials env))) ∧
    ("API_ID" ∈ missing_credentials env ↔ falsyStr env.api_id = true) ∧
    ("API_HASH" ∈ missing_credentials env ↔ falsyStr env.api_hash = true) ∧
    ("PHONE_NUMBER" ∈ missing_credentials env ↔
      falsyStr env.phone_number = true) ∧
    (∀ s : String, missing_credentials env = [] → env.api_id = some s →
      pythonIntParse s = none →
      telegram_sender_init env = .error "API_ID must be a valid integer") := by
  refine ⟨?_, ?_, ?_, ?_, ?_⟩
  · intro hne
    simp [telegram_sender_init, telegram_config_init, validate_credentials, hne]
  · cases ha : falsyStr env.api_id <;> cases hh : falsyStr env.api_hash <;>
      cases hp : falsyStr env.phone_number <;>
      simp [missing_credentials, ha, hh, hp]
  · cases ha : falsyStr env.api_id <;> cases hh : falsyStr env.api_hash <;>
      cases hp : falsyStr env.phone_number <;>
      simp [missing_credentials, ha, hh, hp]
  · cases ha : falsyStr env.api_id <;> cases hh : falsyStr env.api_hash <;>
      cases hp : falsyStr env.phone_number <;>
      simp [missing_credentials, ha, hh, hp]
  · intro s hnone hid hparse
    simp [telegram_sender_init, telegram_config_init, validate_credentials,
      hnone, get_api_id, hid, hparse]

/-- Witness for C9 at two concrete environments: one missing `API_HASH`
and with an empty `PHONE_NUMBER` (both enumerated in the error), and one
complete except that `API_ID` is `"12.5"` (not an integer). -/
theorem config_validation_witness :
    telegram_sender_init ⟨some "abc", none, some "", some "s"⟩ =
      .error (missingCredentialsMsg
        (missing_credentials ⟨some "abc", none, some "", some "s"⟩)) ∧
    telegram_sender_init ⟨some "12.5", some "h", some "p", none⟩ =
      .error "API_ID must be a valid integer" :=
  ⟨(config_validation ⟨some "abc", none, some "", some "s"⟩).1 (by decide),
   (config_validation ⟨some "12.5", some "h", some "p", none⟩).2.2.2.2
     "12.5" (by decide) rfl rfl⟩

end TgLink
